import Mathlib

/-!
Shallow embedding of the flight-booking web application (src/app.py).

The persistent store (SQLAlchemy over SQLite) is modelled as lists of
records; the session (flask_login) as an `Option Nat` holding the logged-in
user's id; each Flask view handler as a pure function from the store, the
session and the request inputs to a result and the successor store.
`DateTime` columns are modelled as proleptic-Gregorian epoch seconds
(an `Int`), which is exact for the datetime arithmetic the app performs.
-/

namespace FlightApp

/-- `User` model (src/app.py lines 29-38): id, unique username, password_hash. -/
structure User where
  id : Nat
  username : String
  password_hash : String
  deriving DecidableEq

/-- `Flight` model (src/app.py lines 41-52).  `price` is a `db.Float`;
the two values ever written (3500.00, 4200.00) are exact, so ℚ models it
faithfully here. -/
structure Flight where
  id : Nat
  departure_city : String
  arrival_city : String
  image : String
  description : String
  route : String
  departure_datetime : Int
  arrival_datetime : Int
  price : ℚ
  deriving DecidableEq

/-- `Booking` model (src/app.py lines 55-64). -/
structure Booking where
  id : Nat
  flight_id : Nat
  user_id : Nat
  full_name : String
  email : String
  phone : String
  deriving DecidableEq

/-- The persistent store: the three tables. -/
structure DB where
  users : List User
  flights : List Flight
  bookings : List Booking
  deriving DecidableEq

/-- What a view handler returns to the client: a redirect to a named route,
a rendered page, or the 404 produced by `get_or_404`. -/
inductive Response where
  | redirect (target : String)
  | render (page : String)
  | notFound
  deriving DecidableEq

/-- A handler result: the `flash` messages it emitted plus its response. -/
structure HttpResult where
  flashes : List String
  response : Response
  deriving DecidableEq

/-- The booking form fields read by `book_flight` (src/app.py lines 169-171). -/
structure BookingForm where
  full_name : String
  email : String
  phone : String
  deriving DecidableEq

/-- SQLite assigns a fresh rowid of max(existing)+1; on an empty table, 1. -/
def nextId (ids : List Nat) : Nat := ids.foldr max 0 + 1

/-- Proleptic-Gregorian day number of a civil date (year ≥ 1), the standard
days-from-civil computation; `datetime(y,mo,d,h,mi,s)` below matches Python's
`datetime` up to a constant offset, which cancels in every difference the
app computes. -/
def daysFromCivil (y m d : Nat) : Nat :=
  let yAdj := if m ≤ 2 then y - 1 else y
  let mAdj := if m ≤ 2 then m + 9 else m - 3
  let era := yAdj / 400
  let yoe := yAdj % 400
  let doy := (153 * mAdj + 2) / 5 + d - 1
  let doe := yoe * 365 + yoe / 4 - yoe / 100 + doy
  era * 146097 + doe

/-- `datetime(y, mo, d, h, mi, s)` as epoch seconds. -/
def datetime (y mo d h mi s : Nat) : Int :=
  ((daysFromCivil y mo d) * 86400 + h * 3600 + mi * 60 + s : Nat)

/-- `ALLOWED_EXTENSIONS = {'png', 'jpg', 'jpeg'}` (src/app.py line 17). -/
def ALLOWED_EXTENSIONS : List String := ["png", "jpg", "jpeg"]

/-- Split a character list at every occurrence of `c` (the char-level
counterpart of Python's `str.split`). -/
def splitOnChar (c : Char) : List Char → List (List Char)
  | [] => [[]]
  | x :: xs =>
      let r := splitOnChar c xs
      if x = c then [] :: r
      else
        match r with
        | [] => [[x]]
        | y :: ys => (x :: y) :: ys

/-- `allowed_file` (src/app.py lines 100-102): `'.' in filename and
filename.rsplit('.', 1)[1].lower() in ALLOWED_EXTENSIONS` — the part after
the last dot, lowercased, must be on the allow-list. -/
def allowed_file (filename : String) : Bool :=
  filename.data.contains '.' &&
    ALLOWED_EXTENSIONS.contains
      (String.mk (((splitOnChar '.' filename.data).getLastD []).map
        Char.toLower))

/-- Modelled from werkzeug (external library): `generate_password_hash`
produces a `method$salt$digest` string; the digest is an invertible stand-in
for the real key-derivation output, which is irrelevant to the claims —
what matters is that the stored string is salt-dependent and is not the
plaintext password itself. -/
def generate_password_hash (salt : Nat) (password : String) : String :=
  "scrypt:32768:8:1$" ++ toString salt ++ "$" ++ String.mk password.data.reverse

/-- Modelled from werkzeug (external library): `check_password_hash` parses
the `method$salt$digest` string and recomputes the digest. -/
def check_password_hash (hash password : String) : Bool :=
  match splitOnChar '$' hash.data with
  | method :: _salt :: rest =>
      method = "scrypt:32768:8:1".data &&
        List.intercalate ['$'] rest = password.data.reverse
  | _ => false

/-- `load_user` (src/app.py lines 95-97): `User.query.get(int(user_id))`. -/
def load_user (s : DB) (uid : Nat) : Option User :=
  s.users.find? (fun u => u.id = uid)

/-- flask_login's `current_user`: the user loaded from the session's stored
id, or anonymous (`none`) when there is no session or the id resolves to no
user. -/
def current_user (s : DB) (session : Option Nat) : Option User :=
  match session with
  | none => none
  | some uid => load_user s uid

/-- `register`, POST branch (src/app.py lines 116-132).  The random salt
werkzeug draws is made an explicit argument. -/
def register (s : DB) (username password : String) (salt : Nat) :
    HttpResult × DB :=
  match s.users.find? (fun u => u.username = username) with
  | some _ =>
      ({ flashes := ["Имя пользователя уже занято."],
         response := Response.redirect "register" }, s)
  | none =>
      let user : User :=
        { id := nextId (s.users.map (fun u => u.id)),
          username := username,
          password_hash := generate_password_hash salt password }
      ({ flashes := ["Регистрация прошла успешно. Теперь вы можете войти."],
         response := Response.redirect "login" },
       { s with users := s.users ++ [user] })

/-- `login`, POST branch (src/app.py lines 135-147).  Returns the handler
result and the successor session: `login_user` binds the session to the
user's id; on failure the session is left as it was. -/
def login (s : DB) (session : Option Nat) (username password : String) :
    HttpResult × Option Nat :=
  match s.users.find? (fun u => u.username = username) with
  | some user =>
      if check_password_hash user.password_hash password then
        ({ flashes := [], response := Response.redirect "index" }, some user.id)
      else
        ({ flashes := ["Неверное имя пользователя или пароль."],
           response := Response.redirect "login" }, session)
  | none =>
      ({ flashes := ["Неверное имя пользователя или пароль."],
         response := Response.redirect "login" }, session)

/-- `MyAdminIndexView.index` (src/app.py lines 66-71): redirect to login
unless the current user is authenticated with username `admin`. -/
def admin_index_view (s : DB) (session : Option Nat) : Response :=
  match current_user s session with
  | none => Response.redirect "login"
  | some u =>
      if u.username ≠ "admin" then Response.redirect "login"
      else Response.render "admin_index"

/-- `MyModelView.is_accessible` (src/app.py lines 77-78):
`current_user.is_authenticated and current_user.username == 'admin'`. -/
def is_accessible (s : DB) (session : Option Nat) : Bool :=
  match current_user s session with
  | none => false
  | some u => u.username = "admin"

/-- flask_admin's dispatch for a `ModelView` request (framework behaviour):
when `is_accessible` is false the view body never runs and
`inaccessible_callback` (src/app.py lines 80-81) answers — here, a redirect
to login — leaving the store untouched; otherwise the requested
record-management operation `op` runs. -/
def model_view_dispatch (s : DB) (session : Option Nat) (op : DB → DB)
    (page : String) : Response × DB :=
  if is_accessible s session then (Response.render page, op s)
  else (Response.redirect "login", s)

/-- Columns of the `Flight` model, in declaration order (src/app.py 41-50). -/
def flight_columns : List String :=
  ["id", "departure_city", "arrival_city", "image", "description", "route",
   "departure_datetime", "arrival_datetime", "price"]

/-- Columns of the `Booking` model (src/app.py 55-61). -/
def booking_columns : List String :=
  ["id", "flight_id", "user_id", "full_name", "email", "phone"]

/-- Keys of `MyModelView.form_overrides` (src/app.py lines 86-88): the one
field name mapped to `ImageUploadField`. -/
def form_overrides_keys : List String := ["image_path"]

/-- flask_admin applies a form override to exactly those model columns whose
name is a key of `form_overrides`: the columns of `cols` that get an
`ImageUploadField`. -/
def upload_columns (cols : List String) : List String :=
  cols.filter (fun c => form_overrides_keys.contains c)

/-- An admin edit of a Flight's `image` column.  Because `image` is not a
`form_overrides` key it renders as a plain text field, so the submitted
value is stored as-is by the generic edit view; the whole request is gated
by `model_view_dispatch`. -/
def admin_edit_flight_image (s : DB) (session : Option Nat) (fid : Nat)
    (filename : String) : Response × DB :=
  model_view_dispatch s session
    (fun t =>
      { t with
        flights := t.flights.map
          (fun f => if f.id = fid then { f with image := filename } else f) })
    "admin_flight_edit"

/-- `flight_details` (src/app.py lines 157-163): 404 when the flight id is
absent, otherwise the flight together with the derived duration
`(hours, minutes)`.  Python's `//` is floor division and `%` keeps the
divisor's sign, i.e. `Int.fdiv` / `Int.fmod`. -/
def flight_details (s : DB) (fid : Nat) : Option (Flight × Int × Int) :=
  (s.flights.find? (fun f => f.id = fid)).map (fun f =>
    let total := f.arrival_datetime - f.departure_datetime
    (f, Int.fdiv total 3600, Int.fdiv (Int.fmod total 3600) 60))

/-- `book_flight` (src/app.py lines 165-183).  `@login_required` redirects
an anonymous caller to login; `get_or_404` answers 404 before the form is
read; Python's `not field` on a string tests for the empty string — no
whitespace trimming happens. -/
def book_flight (s : DB) (session : Option Nat) (flight_id : Nat)
    (form : BookingForm) : HttpResult × DB :=
  match current_user s session with
  | none => ({ flashes := [], response := Response.redirect "login" }, s)
  | some u =>
      match s.flights.find? (fun f => f.id = flight_id) with
      | none => ({ flashes := [], response := Response.notFound }, s)
      | some flight =>
          if form.full_name = "" ∨ form.email = "" ∨ form.phone = "" then
            ({ flashes := ["Пожалуйста, заполните все поля."],
               response := Response.redirect "flight_details" }, s)
          else
            let booking : Booking :=
              { id := nextId (s.bookings.map (fun b => b.id)),
                flight_id := flight.id,
                user_id := u.id,
                full_name := form.full_name,
                email := form.email,
                phone := form.phone }
            ({ flashes := ["Рейс успешно забронирован!"],
               response := Response.redirect "bookings" },
             { s with bookings := s.bookings ++ [booking] })

/-- The query behind the `bookings` view (src/app.py line 189):
`Booking.query.filter_by(user_id=...)`. -/
def user_bookings (s : DB) (uid : Nat) : List Booking :=
  s.bookings.filter (fun b => b.user_id = uid)

/-- `bookings` view (src/app.py lines 186-190): login-guarded list of the
current user's bookings. -/
def bookings_view (s : DB) (session : Option Nat) : Option (List Booking) :=
  (current_user s session).map (fun u => user_bookings s u.id)

/-- First hardcoded demonstration flight of `add_default_flights`
(src/app.py lines 196-199); inserted into an empty table it receives
rowid 1. -/
def moscowSpbFlight : Flight :=
  { id := 1, departure_city := "Москва", arrival_city := "Санкт-Петербург",
    image := "static/uploads/moscow_spb.jpg",
    description := "Прямой рейс из Москвы в Санкт-Петербург.",
    route := "MOW-SPB",
    departure_datetime := datetime 2024 5 10 10 0 0,
    arrival_datetime := datetime 2024 5 10 11 30 0,
    price := 3500 }

/-- Second hardcoded demonstration flight of `add_default_flights`
(src/app.py lines 200-203). -/
def moscowEkbFlight : Flight :=
  { id := 2, departure_city := "Москва", arrival_city := "Екатеринбург",
    image := "static/uploads/moscow_ekb.jpg",
    description := "Прямой рейс из Москвы в Екатеринбург.",
    route := "MOW-EKB",
    departure_datetime := datetime 2024 5 12 14 0 0,
    arrival_datetime := datetime 2024 5 12 17 30 0,
    price := 4200 }

/-- The list the seeding step inserts (src/app.py lines 195-204). -/
def default_flights : List Flight := [moscowSpbFlight, moscowEkbFlight]

/-- `add_default_flights` (src/app.py lines 193-206): seeds the two
demonstration flights only when `Flight.query.first()` finds nothing. -/
def add_default_flights (s : DB) : DB :=
  if s.flights.isEmpty then { s with flights := s.flights ++ default_flights }
  else s

/-- `index` view (src/app.py lines 105-109): seed, then render all flights.
Returns the flight list handed to the template and the successor store. -/
def index (s : DB) : List Flight × DB :=
  let s2 := add_default_flights s
  (s2.flights, s2)


/-- A flight whose arrival precedes its departure: representable because
nothing validates arrival > departure (spec §9 names this an open gap). -/
def backwardFlight : Flight :=
  { id := 7, departure_city := "Москва", arrival_city := "Казань",
    image := "", description := "", route := "MOW-KZN",
    departure_datetime := datetime 2024 5 10 10 0 0,
    arrival_datetime := datetime 2024 5 10 9 30 0,
    price := 1000 }

/-- Store holding only the backward flight. -/
def backwardDB : DB :=
  { users := [], flights := [backwardFlight], bookings := [] }

/-- Python's `str.strip()` at the character level: drop leading and trailing
whitespace.  Used only to state trimming-related properties of form input. -/
def pyStrip (t : String) : String :=
  String.mk (((t.data.dropWhile Char.isWhitespace).reverse.dropWhile
    Char.isWhitespace).reverse)

/-- Fixture: a registered user. -/
def alice : User :=
  { id := 1, username := "alice",
    password_hash := generate_password_hash 7 "pw1" }

/-- Fixture: a second registered user, not the admin. -/
def bob : User :=
  { id := 2, username := "bob",
    password_hash := generate_password_hash 9 "pw2" }

/-- Fixture: the privileged account — privileged only by its username. -/
def adminUser : User :=
  { id := 3, username := "admin",
    password_hash := generate_password_hash 5 "adm" }

/-- Fixture: a store with three users, the two seeded flights, no bookings. -/
def sampleDB : DB :=
  { users := [alice, bob, adminUser], flights := default_flights,
    bookings := [] }

/-- Fixture: a fully filled booking form. -/
def aliceForm : BookingForm :=
  { full_name := "Alice A", email := "a@x.com", phone := "123" }

lemma generate_password_hash_ne_password (salt : Nat) (p : String) :
    generate_password_hash salt p ≠ p := by
  intro h
  have h2 : (generate_password_hash salt p).length = p.length :=
    congrArg String.length h
  have h3 : (String.mk p.data.reverse).length = p.length := by
    rw [String.length_mk, List.length_reverse]
    rfl
  have hA : ("scrypt:32768:8:1$" : String).length = 17 := rfl
  have hB : ("$" : String).length = 1 := rfl
  rw [generate_password_hash, String.length_append, String.length_append,
    String.length_append, hA, hB, h3] at h2
  omega

lemma register_dup (s : DB) (u p : String) (salt : Nat)
    (h : ∃ w ∈ s.users, w.username = u) :
    register s u p salt =
      ({ flashes := ["Имя пользователя уже занято."],
         response := Response.redirect "register" }, s) := by
  have hsome : (s.users.find? (fun w => w.username = u)).isSome := by
    rw [List.find?_isSome]
    obtain ⟨w, hw, hwu⟩ := h
    exact ⟨w, hw, by simp [hwu]⟩
  obtain ⟨w, hw⟩ := Option.isSome_iff_exists.mp hsome
  rw [register, hw]

lemma register_fresh (s : DB) (u p : String) (salt : Nat)
    (h : ∀ w ∈ s.users, w.username ≠ u) :
    register s u p salt =
      ({ flashes := ["Регистрация прошла успешно. Теперь вы можете войти."],
         response := Response.redirect "login" },
       { s with users := s.users ++
           [{ id := nextId (s.users.map (fun w => w.id)), username := u,
              password_hash := generate_password_hash salt p }] }) := by
  have hnone : s.users.find? (fun w => w.username = u) = none := by
    rw [List.find?_eq_none]
    intro w hw
    simp [h w hw]
  rw [register, hnone]

lemma book_flight_success (s : DB) (sess : Option Nat) (fid : Nat)
    (form : BookingForm)
    (hsucc : (book_flight s sess fid form).1.response =
      Response.redirect "bookings") :
    ∃ u flight,
      current_user s sess = some u ∧
      s.flights.find? (fun f => f.id = fid) = some flight ∧
      book_flight s sess fid form =
        ({ flashes := ["Рейс успешно забронирован!"],
           response := Response.redirect "bookings" },
         { s with bookings := s.bookings ++
             [{ id := nextId (s.bookings.map (fun b => b.id)),
                flight_id := flight.id, user_id := u.id,
                full_name := form.full_name, email := form.email,
                phone := form.phone }] }) := by
  cases hcu : current_user s sess with
  | none =>
      rw [book_flight, hcu] at hsucc
      simp at hsucc
  | some u =>
      cases hf : s.flights.find? (fun f => f.id = fid) with
      | none =>
          rw [book_flight, hcu, hf] at hsucc
          simp at hsucc
      | some flight =>
          by_cases hv : form.full_name = "" ∨ form.email = "" ∨ form.phone = ""
          · rw [book_flight, hcu, hf] at hsucc
            simp [hv] at hsucc
          · refine ⟨u, flight, rfl, rfl, ?_⟩
            rw [book_flight, hcu, hf]
            simp [hv]

/-- Claim C1: a successful `book_flight` persists exactly one Booking whose
`user_id` is the authenticated user's id and whose `flight_id` is the id of
the existing flight; afterwards that booking is in the acting user's
booking list and in no other user's booking list. -/
theorem booking_ownership (s : DB) (sess : Option Nat) (fid : Nat)
    (form : BookingForm)
    (hsucc : (book_flight s sess fid form).1.response =
      Response.redirect "bookings") :
    ∃ u flight b,
      current_user s sess = some u ∧
      flight ∈ s.flights ∧ flight.id = fid ∧
      (book_flight s sess fid form).2.bookings = s.bookings ++ [b] ∧
      b.user_id = u.id ∧ b.flight_id = flight.id ∧
      b ∈ user_bookings (book_flight s sess fid form).2 u.id ∧
      ∀ v : Nat, v ≠ u.id →
        b ∉ user_bookings (book_flight s sess fid form).2 v := by
  obtain ⟨u, flight, hcu, hf, heq⟩ := book_flight_success s sess fid form hsucc
  have hmem : flight ∈ s.flights := List.mem_of_find?_eq_some hf
  have hid : flight.id = fid := by
    have := List.find?_some hf
    simpa using this
  refine ⟨u, flight,
    { id := nextId (s.bookings.map (fun b => b.id)),
      flight_id := flight.id, user_id := u.id,
      full_name := form.full_name, email := form.email,
      phone := form.phone }, hcu, hmem, hid, ?_, rfl, rfl, ?_, ?_⟩
  · rw [heq]
  · rw [heq, user_bookings]
    simp
  · intro v hv hmemv
    rw [heq, user_bookings] at hmemv
    simp at hmemv
    rcases hmemv with ⟨_, h2⟩ | h2 <;> exact hv h2.symm

/-- Claim C1 witness: alice (id 1) books seeded flight 1 with a valid form. -/
theorem booking_ownership_witness :
    ((book_flight sampleDB (some 1) 1 aliceForm).1.response =
      Response.redirect "bookings") ∧
    (∃ u flight b,
      current_user sampleDB (some 1) = some u ∧
      flight ∈ sampleDB.flights ∧ flight.id = 1 ∧
      (book_flight sampleDB (some 1) 1 aliceForm).2.bookings =
        sampleDB.bookings ++ [b] ∧
      b.user_id = u.id ∧ b.flight_id = flight.id ∧
      b ∈ user_bookings (book_flight sampleDB (some 1) 1 aliceForm).2 u.id ∧
      ∀ v : Nat, v ≠ u.id →
        b ∉ user_bookings (book_flight sampleDB (some 1) 1 aliceForm).2 v) :=
  ⟨by decide, booking_ownership sampleDB (some 1) 1 aliceForm (by decide)⟩

/-- Claim C2: the admin index view and the guarded model views answer a
redirect to login and leave the store untouched for every caller that is
not an authenticated user named `admin`. -/
theorem admin_gate (s : DB) (sess : Option Nat) (op : DB → DB) (page : String)
    (h : ∀ u, current_user s sess = some u → u.username ≠ "admin") :
    admin_index_view s sess = Response.redirect "login" ∧
    model_view_dispatch s sess op page = (Response.redirect "login", s) := by
  have hacc : is_accessible s sess = false := by
    rw [is_accessible]
    cases hcu : current_user s sess with
    | none => rfl
    | some u => simp [h u hcu]
  constructor
  · rw [admin_index_view]
    cases hcu : current_user s sess with
    | none => rfl
    | some u => simp [h u hcu]
  · rw [model_view_dispatch, hacc]
    simp

/-- Claim C2 witness: bob (id 2, not admin) and an anonymous caller are both
turned away from a deleting operation with the store unchanged. -/
theorem admin_gate_witness :
    (admin_index_view sampleDB (some 2) = Response.redirect "login" ∧
      model_view_dispatch sampleDB (some 2)
        (fun t => { t with flights := [] }) "admin_flight_list" =
        (Response.redirect "login", sampleDB)) ∧
    (admin_index_view sampleDB none = Response.redirect "login" ∧
      model_view_dispatch sampleDB none
        (fun t => { t with flights := [] }) "admin_flight_list" =
        (Response.redirect "login", sampleDB)) :=
  ⟨admin_gate sampleDB (some 2) _ _
      (fun u hu => by
        have hu2 : some bob = some u := hu
        cases hu2
        decide),
    admin_gate sampleDB none _ _ (fun u hu => by cases hu)⟩

/-- Claim C3: `register` fails (duplicate-username flash, redirect back to
the register view, store unchanged) exactly when a user with that username
already exists, by case-sensitive string equality; otherwise it appends one
user whose stored `password_hash` is the salted hash of the password and
not the plaintext; registering the same username twice leaves exactly one
user record with that username. -/
theorem register_duplicate_and_hash :
    (∀ (s : DB) (u p : String) (salt : Nat),
       (∃ w ∈ s.users, w.username = u) →
       register s u p salt =
         ({ flashes := ["Имя пользователя уже занято."],
            response := Response.redirect "register" }, s)) ∧
    (∀ (s : DB) (u p : String) (salt : Nat),
       (∀ w ∈ s.users, w.username ≠ u) →
       ∃ w, (register s u p salt).2.users = s.users ++ [w] ∧
         w.username = u ∧
         w.password_hash = generate_password_hash salt p ∧
         w.password_hash ≠ p) ∧
    (∀ (s : DB) (u p q : String) (salt salt2 : Nat),
       (∀ w ∈ s.users, w.username ≠ u) →
       ((register (register s u p salt).2 u q salt2).2.users.filter
          (fun w => w.username = u)).length = 1) := by
  refine ⟨fun s u p salt h => register_dup s u p salt h,
    fun s u p salt h => ?_, fun s u p q salt salt2 h => ?_⟩
  · rw [register_fresh s u p salt h]
    exact ⟨_, rfl, rfl, rfl, generate_password_hash_ne_password salt p⟩
  · have h1 : (register s u p salt).2 =
        { s with users := s.users ++
            [(⟨nextId (s.users.map (fun w => w.id)), u,
               generate_password_hash salt p⟩ : User)] } := by
      rw [register_fresh s u p salt h]
    have hdup : register
        { s with users := s.users ++
            [(⟨nextId (s.users.map (fun w => w.id)), u,
               generate_password_hash salt p⟩ : User)] } u q salt2 =
        ({ flashes := ["Имя пользователя уже занято."],
           response := Response.redirect "register" },
         { s with users := s.users ++
             [(⟨nextId (s.users.map (fun w => w.id)), u,
                generate_password_hash salt p⟩ : User)] }) := by
      apply register_dup
      exact ⟨⟨nextId (s.users.map (fun w => w.id)), u,
        generate_password_hash salt p⟩, by simp, rfl⟩
    rw [h1, hdup]
    have hnil : s.users.filter (fun w => w.username = u) = [] := by
      rw [List.filter_eq_nil_iff]
      intro w hw
      simp [h w hw]
    simp [List.filter_append, hnil]

/-- Claim C3 witness: registering `alice` again fails and changes nothing;
registering fresh `carol` appends one correctly hashed user; registering
`dave` twice leaves exactly one `dave` record. -/
theorem register_duplicate_and_hash_witness :
    (register sampleDB "alice" "zz" 11 =
      ({ flashes := ["Имя пользователя уже занято."],
         response := Response.redirect "register" }, sampleDB)) ∧
    (∃ w, (register sampleDB "carol" "pw3" 11).2.users =
        sampleDB.users ++ [w] ∧ w.username = "carol" ∧
        w.password_hash = generate_password_hash 11 "pw3" ∧
        w.password_hash ≠ "pw3") ∧
    ((register (register sampleDB "dave" "a" 1).2 "dave" "b" 2).2.users.filter
       (fun w => w.username = "dave")).length = 1 :=
  ⟨register_duplicate_and_hash.1 sampleDB "alice" "zz" 11
      ⟨alice, by decide, by decide⟩,
    register_duplicate_and_hash.2.1 sampleDB "carol" "pw3" 11 (by decide),
    register_duplicate_and_hash.2.2 sampleDB "dave" "a" "b" 1 2 (by decide)⟩

/-- Claim C4 counterexample: a booking form whose `full_name` is a single
space is empty after trimming, yet `book_flight` accepts it and persists a
Booking — the handler never trims, it only compares against `""`. -/
theorem booking_whitespace_accepted :
    pyStrip " " = "" ∧
    (book_flight sampleDB (some 1) 1
      { full_name := " ", email := "a@x.com", phone := "123" }).1.response =
      Response.redirect "bookings" ∧
    (book_flight sampleDB (some 1) 1
      { full_name := " ", email := "a@x.com", phone := "123" }).2.bookings ≠
      sampleDB.bookings := by
  refine ⟨rfl, by decide, by decide⟩

/-- Claim C4 (amended): if any of the three contact fields is exactly the
empty string, `book_flight` persists nothing and does not succeed. -/
theorem booking_empty_field_rejected (s : DB) (sess : Option Nat) (fid : Nat)
    (form : BookingForm)
    (h : form.full_name = "" ∨ form.email = "" ∨ form.phone = "") :
    (book_flight s sess fid form).2 = s ∧
    (book_flight s sess fid form).1.response ≠
      Response.redirect "bookings" := by
  cases hcu : current_user s sess with
  | none => rw [book_flight, hcu]; exact ⟨rfl, by simp⟩
  | some u =>
      cases hf : s.flights.find? (fun f => f.id = fid) with
      | none => rw [book_flight, hcu, hf]; exact ⟨rfl, by simp⟩
      | some flight => simp [book_flight, hcu, hf, h]

/-- Claim C4 witness: an empty `full_name` creates no Booking. -/
theorem booking_empty_field_rejected_witness :
    (book_flight sampleDB (some 1) 1
      { full_name := "", email := "a@x.com", phone := "123" }).2 = sampleDB ∧
    (book_flight sampleDB (some 1) 1
      { full_name := "", email := "a@x.com", phone := "123" }).1.response ≠
      Response.redirect "bookings" :=
  booking_empty_field_rejected sampleDB (some 1) 1
    { full_name := "", email := "a@x.com", phone := "123" } (Or.inl rfl)

/-- Claim C5: `login` answers one and the same generic invalid-credentials
result — identical flash, identical redirect, session left untouched —
both when no user has the submitted username and when the hash check
rejects the password; when the lookup succeeds and the hash check accepts,
the session is bound to that user's id. -/
theorem login_generic_failure (s : DB) (sess : Option Nat) (u p : String) :
    ((∀ w ∈ s.users, w.username ≠ u) →
       login s sess u p =
         ({ flashes := ["Неверное имя пользователя или пароль."],
            response := Response.redirect "login" }, sess)) ∧
    (∀ w, s.users.find? (fun x => x.username = u) = some w →
       check_password_hash w.password_hash p = false →
       login s sess u p =
         ({ flashes := ["Неверное имя пользователя или пароль."],
            response := Response.redirect "login" }, sess)) ∧
    (∀ w, s.users.find? (fun x => x.username = u) = some w →
       check_password_hash w.password_hash p = true →
       login s sess u p =
         ({ flashes := [], response := Response.redirect "index" },
          some w.id)) := by
  refine ⟨fun h => ?_, fun w hw hc => ?_, fun w hw hc => ?_⟩
  · have hnone : s.users.find? (fun x => x.username = u) = none := by
      rw [List.find?_eq_none]
      intro x hx
      simp [h x hx]
    rw [login, hnone]
  · simp [login, hw, hc]
  · simp [login, hw, hc]

/-- Claim C5 witness: unknown username and wrong password yield the very
same result with no session; the right password logs alice in. -/
theorem login_generic_failure_witness :
    login sampleDB none "ghost" "pw1" =
      ({ flashes := ["Неверное имя пользователя или пароль."],
         response := Response.redirect "login" }, none) ∧
    login sampleDB none "alice" "wrong" =
      ({ flashes := ["Неверное имя пользователя или пароль."],
         response := Response.redirect "login" }, none) ∧
    login sampleDB none "alice" "pw1" =
      ({ flashes := [], response := Response.redirect "index" }, some 1) :=
  ⟨(login_generic_failure sampleDB none "ghost" "pw1").1 (by decide),
    (login_generic_failure sampleDB none "alice" "wrong").2.1 alice
      (by decide) (by decide),
    (login_generic_failure sampleDB none "alice" "pw1").2.2 alice
      (by decide) (by decide)⟩

/-- Claim C6: on an empty catalog `index` seeds exactly the two hardcoded
demonstration flights before returning them, and the seeding is idempotent:
with at least one flight present `add_default_flights` inserts nothing, so
a second read returns the same two flights and changes no state. -/
theorem seeding_idempotent :
    (∀ s : DB, s.flights = [] →
       (index s).1 = default_flights ∧
       default_flights.length = 2 ∧
       (index (index s).2).1 = default_flights ∧
       (index (index s).2).2 = (index s).2) ∧
    (∀ s : DB, s.flights ≠ [] → add_default_flights s = s) := by
  have h2 : ∀ s : DB, s.flights ≠ [] → add_default_flights s = s := by
    intro s hs
    cases hsf : s.flights with
    | nil => exact absurd hsf hs
    | cons a t => simp [add_default_flights, hsf]
  have hstep : ∀ s : DB, s.flights = [] →
      index s = (default_flights, { s with flights := default_flights }) := by
    intro s hs
    simp [index, add_default_flights, hs]
  refine ⟨fun s hs => ?_, h2⟩
  have h1 := hstep s hs
  have hs2 : ({ s with flights := default_flights } : DB).flights ≠ [] := by
    show default_flights ≠ []
    decide
  have h3 := h2 _ hs2
  rw [h1]
  exact ⟨rfl, rfl, by simp [index, h3], by simp [index, h3]⟩

/-- Claim C6 witness: from an empty store, two reads both return exactly
the two seeded flights with no further state change. -/
theorem seeding_idempotent_witness :
    ((index { users := [], flights := [], bookings := [] }).1 =
       default_flights ∧
     default_flights.length = 2 ∧
     (index (index { users := [], flights := [], bookings := [] }).2).1 =
       default_flights ∧
     (index (index { users := [], flights := [], bookings := [] }).2).2 =
       (index { users := [], flights := [], bookings := [] }).2) ∧
    add_default_flights sampleDB = sampleDB :=
  ⟨seeding_idempotent.1 { users := [], flights := [], bookings := [] } rfl,
    seeding_idempotent.2 sampleDB (by decide)⟩

/-- Claim C7: for an authenticated caller and a flight id matching no
existing flight, `book_flight` answers 404 with the store unchanged, and
the result is the same whatever the submitted form holds — the form is
never consulted. -/
theorem book_flight_not_found (s : DB) (sess : Option Nat) (fid : Nat)
    (hauth : ∃ u, current_user s sess = some u)
    (hmiss : ∀ f ∈ s.flights, f.id ≠ fid) :
    ∀ form : BookingForm,
      book_flight s sess fid form =
        ({ flashes := [], response := Response.notFound }, s) := by
  intro form
  obtain ⟨u, hu⟩ := hauth
  have hnone : s.flights.find? (fun f => f.id = fid) = none := by
    rw [List.find?_eq_none]
    intro f hf
    simp [hmiss f hf]
  rw [book_flight, hu, hnone]

/-- Claim C7 witness: alice books nonexistent flight 999. -/
theorem book_flight_not_found_witness :
    book_flight sampleDB (some 1) 999 aliceForm =
      ({ flashes := [], response := Response.notFound }, sampleDB) :=
  book_flight_not_found sampleDB (some 1) 999 ⟨alice, rfl⟩ (by decide)
    aliceForm

/-- Claim C8 (amended): `flight_details` computes the duration with floor
division of the elapsed seconds (Python `//` and `%`); for every flight
whose arrival is not before its departure this coincides with the
truncating formulas `hours = tdiv total 3600`,
`minutes = tdiv (tmod total 3600) 60` that the claim states. -/
theorem flight_duration_trunc (s : DB) (fid : Nat) (f : Flight)
    (hrs mins : Int)
    (h : flight_details s fid = some (f, hrs, mins))
    (hle : f.departure_datetime ≤ f.arrival_datetime) :
    hrs = Int.tdiv (f.arrival_datetime - f.departure_datetime) 3600 ∧
    mins = Int.tdiv
      (Int.tmod (f.arrival_datetime - f.departure_datetime) 3600) 60 := by
  rw [flight_details, Option.map_eq_some'] at h
  obtain ⟨g, hg, heq⟩ := h
  simp only [Prod.mk.injEq] at heq
  obtain ⟨hgf, hh, hm⟩ := heq
  subst g
  have ht : 0 ≤ f.arrival_datetime - f.departure_datetime :=
    sub_nonneg.mpr hle
  constructor
  · rw [← hh, Int.fdiv_eq_ediv _ (by norm_num),
      Int.tdiv_eq_ediv ht (by norm_num)]
  · have hm1 : Int.fmod (f.arrival_datetime - f.departure_datetime) 3600 =
        Int.tmod (f.arrival_datetime - f.departure_datetime) 3600 := by
      rw [Int.fmod_eq_emod _ (by norm_num),
        Int.tmod_eq_emod ht (by norm_num)]
    have hnn : 0 ≤ Int.tmod (f.arrival_datetime - f.departure_datetime)
        3600 := by
      rw [Int.tmod_eq_emod ht (by norm_num)]
      exact Int.emod_nonneg _ (by norm_num)
    rw [← hm, hm1, Int.fdiv_eq_ediv _ (by norm_num),
      Int.tdiv_eq_ediv hnn (by norm_num)]

/-- Claim C8 counterexample: a representable flight whose arrival precedes
its departure (nothing enforces arrival > departure).  The handler, using
Python floor semantics, reports (-1 h, 30 min) for a −30-minute duration;
the claimed truncation-toward-zero formulas give (0 h, −30 min) instead. -/
theorem flight_duration_floor_not_trunc :
    flight_details backwardDB 7 = some (backwardFlight, -1, 30) ∧
    Int.tdiv (backwardFlight.arrival_datetime -
      backwardFlight.departure_datetime) 3600 = 0 ∧
    Int.tdiv (Int.tmod (backwardFlight.arrival_datetime -
      backwardFlight.departure_datetime) 3600) 60 = -30 ∧
    ¬((-1 : Int) = 0 ∧ (30 : Int) = -30) := by decide

/-- Claim C8 witness: the seeded 90-minute flight yields 1 h 30 min, equal
to the truncating formulas. -/
theorem flight_duration_trunc_witness :
    (1 : Int) = Int.tdiv (moscowSpbFlight.arrival_datetime -
      moscowSpbFlight.departure_datetime) 3600 ∧
    (30 : Int) = Int.tdiv (Int.tmod (moscowSpbFlight.arrival_datetime -
      moscowSpbFlight.departure_datetime) 3600) 60 :=
  flight_duration_trunc sampleDB 1 moscowSpbFlight 1 30 (by decide)
    (by decide)

/-- Claim C9: the extension allow-list is implemented (`allowed_file`) but
unreachable — the `form_overrides` key `image_path` names no column of
Flight or Booking, so no admin field is an `ImageUploadField`, and the
admin can store a non-allow-listed file name with no validation error. -/
theorem admin_upload_validation_unreachable :
    upload_columns flight_columns = [] ∧
    upload_columns booking_columns = [] ∧
    allowed_file "evil.exe" = false ∧
    allowed_file "safe.png" = true ∧
    (admin_edit_flight_image sampleDB (some 3) 1 "evil.exe").1 =
      Response.render "admin_flight_edit" ∧
    ∃ f ∈ (admin_edit_flight_image sampleDB (some 3) 1 "evil.exe").2.flights,
      f.image = "evil.exe" := by decide

/-- Claim C10: `register` checks nothing but username availability: any
fresh username, the empty string included, with any password, the empty
string included, is persisted verbatim and reported successful. -/
theorem register_unvalidated (s : DB) (u p : String) (salt : Nat)
    (h : ∀ w ∈ s.users, w.username ≠ u) :
    ∃ w, (register s u p salt).2.users = s.users ++ [w] ∧ w.username = u ∧
      (register s u p salt).1 =
        { flashes := ["Регистрация прошла успешно. Теперь вы можете войти."],
          response := Response.redirect "login" } := by
  rw [register_fresh s u p salt h]
  exact ⟨_, rfl, rfl, rfl⟩

/-- Claim C10 witness: a user with empty username and empty password is
created through the public flow. -/
theorem register_unvalidated_witness :
    ∃ w, (register sampleDB "" "" 13).2.users = sampleDB.users ++ [w] ∧
      w.username = "" ∧
      (register sampleDB "" "" 13).1 =
        { flashes := ["Регистрация прошла успешно. Теперь вы можете войти."],
          response := Response.redirect "login" } :=
  register_unvalidated sampleDB "" "" 13 (by decide)

end FlightApp
